import Mathlib

/-!
Verification of rcook/rust-actions src/sign.py: a shallow embedding of the
code-signing CLI (secrets bundle format, path derivation, base64 codec,
the three orchestrator operations and the CLI wiring), with theorems
checking the specification's claims against it.

Conventions of the embedding:
* Python exceptions become an explicit error type, returned in Except.
* The filesystem is an association list from path to text content,
  threaded explicitly; each operation also returns a trace of its
  observable effects (file reads, file writes, spawned processes).
* External processes (the certificate helper, signtool) are oracles:
  their outcome is an input of the modelled operation, as is the random
  password and the temporary-directory name.
* Machine strings are Lean String; byte sequences are List Nat with
  values below 256.
-/

/-- Error taxonomy of the program. Each constructor is one Python
exception observed in src/sign.py: typeError is Python TypeError (a call
with a missing required positional argument); validationError is the
ValueError of SecretsPaths.parse; alreadyExists is FileExistsError from
exclusive-create open; ioError is FileNotFoundError from open for read;
decodeError is binascii.Error from b64decode; notFound is the
RuntimeError of find_signtool; unsupportedOperation is the RuntimeError
of verify_executable in no-op mode; processFailed is CalledProcessError
from run(check=True); argumentTypeError is argparse ArgumentTypeError;
missingArgument is the argparse failure for a required flag left out. -/
inductive PyErr where
  | typeError
  | validationError
  | alreadyExists
  | ioError
  | decodeError
  | notFound
  | unsupportedOperation
  | processFailed
  | argumentTypeError
  | missingArgument
deriving DecidableEq, Repr

/-- A Python value that can reach the force parameter of
generate_certificate: the booleans set by the --force and --no-force flags,
or the string default "false" declared by the cert subparser. -/
inductive PyVal where
  | bool (b : Bool)
  | str (s : String)
deriving DecidableEq, Repr

/-- Python truthiness restricted to PyVal: a bool is itself, a string is
truthy when non-empty. This is what the expression
mode = "wt" if force else "xt" evaluates on the force argument. -/
def pyTruthy : PyVal → Bool
  | PyVal.bool b => b
  | PyVal.str s => !(s == "")

/-- The persistent filesystem: an association list from path to the text
content stored at that path. Temporary directories are scoped and
deleted on every exit path in the source, so they are kept out of this
state; reads and writes under them appear only in the effect trace. -/
abbrev FS := List (String × String)

/-- Content stored at a path, if any. -/
def fsLookup : FS → String → Option String
  | [], _ => none
  | (p, v) :: rest, q => if p = q then some v else fsLookup rest q

/-- Whether a path names an existing file. -/
def fsExists (fs : FS) (p : String) : Bool := (fsLookup fs p).isSome

/-- Write content at a path, replacing any previous content in place. -/
def fsWrite : FS → String → String → FS
  | [], p, v => [(p, v)]
  | (q, w) :: rest, p, v => if q = p then (p, v) :: rest else (q, w) :: fsWrite rest p v

/-- One observable side effect of an operation: a file read, a file
write (opening a file for writing counts as the write), or an external
process spawned via subprocess.run. -/
inductive Effect where
  | fsRead (p : String)
  | fsWrite (p : String)
  | spawn (cmd : List String)
deriving DecidableEq, Repr

/-- Path separators recognised by os.path on the target platform
(ntpath: backslash as sep, slash as altsep; posixpath uses the slash
alone, which the same predicate covers). -/
def isSep (c : Char) : Bool := c = '/' || c = '\\'

/-- Index of the last character satisfying a predicate, accumulator form. -/
def lastIdxAux (p : Char → Bool) : List Char → Nat → Option Nat → Option Nat
  | [], _, best => best
  | c :: rest, i, best => lastIdxAux p rest (i + 1) (if p c then some i else best)

/-- Index of the last character satisfying a predicate, like str.rfind. -/
def lastIdx (p : Char → Bool) (l : List Char) : Option Nat := lastIdxAux p l 0 none

/-- Whether every character of the list is a dot. -/
def allDots (l : List Char) : Bool := l.all (fun c => c = '.')

/-- os.path.splitext, after genericpath of CPython: find the last
separator and the last dot; split at the dot when it lies after the
last separator and the characters between them are not all dots (so a
leading-dot file name such as .crt has no extension). -/
def splitext (path : String) : String × String :=
  let l := path.data
  match lastIdx (fun c => c = '.') l with
  | none => (path, "")
  | some dotIndex =>
    let filenameIndex :=
      match lastIdx isSep l with
      | none => 0
      | some s => s + 1
    if filenameIndex ≤ dotIndex
        && !allDots ((l.drop filenameIndex).take (dotIndex - filenameIndex)) then
      (String.mk (l.take dotIndex), String.mk (l.drop dotIndex))
    else
      (path, "")

/-- os.path.basename: the part of the path after the last separator. -/
def basenameAux : List Char → List Char → List Char
  | [], acc => acc
  | c :: rest, acc => if isSep c then basenameAux rest [] else basenameAux rest (acc ++ [c])

/-- os.path.basename of a path string. -/
def basename (p : String) : String := String.mk (basenameAux p.data [])

/-- str.lower, restricted to ASCII case folding (all names involved in
the source are ASCII). -/
def lowerStr (s : String) : String := String.mk (s.data.map Char.toLower)

/-- file_path from the source: os.path.normpath(os.path.join(a, b)).
The join is modelled exactly (an absolute second component replaces the
first; otherwise a separator is inserted unless one is present); the
normpath normalisation is the identity on every path built in this
development and no claim depends on it. -/
def file_path (a b : String) : String :=
  if b.data.headD ' ' = '/' || b.data.headD ' ' = '\\' then b
  else if a = "" || isSep (a.data.getLastD ' ') then a ++ b
  else a ++ "/" ++ b

/-- Value of a character in the base64 alphabet, none for every other
character; the pad character = is handled separately, as in the
table_a2b_base64 of binascii. -/
def b64charVal (c : Char) : Option Nat :=
  if 'A' ≤ c ∧ c ≤ 'Z' then some (c.toNat - 65)
  else if 'a' ≤ c ∧ c ≤ 'z' then some (c.toNat - 97 + 26)
  else if '0' ≤ c ∧ c ≤ '9' then some (c.toNat - 48 + 52)
  else if c = '+' then some 62
  else if c = '/' then some 63
  else none

/-- Whether a character is in the base64 alphabet proper (pad excluded). -/
def isB64Alphabet (c : Char) : Bool := (b64charVal c).isSome

/-- A character binascii_find_valid counts as valid: alphabet or pad. -/
def isB64Valid (c : Char) : Bool := isB64Alphabet c || c = '='

/-- The decoding loop of binascii.a2b_base64 in its default lax mode
(CPython 3.9, the version the source targets): characters outside the
alphabet are skipped; a pad character is skipped while fewer than two
characters of the current quad have been seen, and also at quad
position two when the next valid character is not a second pad;
otherwise it ends the input, discarding pending bits. Six bits are
shifted in per alphabet character and a byte is emitted whenever eight
bits are available. If bits remain pending at the end of input the
call fails (the Incorrect padding error). State: quad position,
pending bit store, count of pending bits, bytes emitted (reversed). -/
def a2b_base64_aux : List Char → Nat → Nat → Nat → List Nat → Except PyErr (List Nat)
  | [], _, _, leftbits, acc =>
    if leftbits ≠ 0 then Except.error PyErr.decodeError else Except.ok acc.reverse
  | c :: rest, quad_pos, leftchar, leftbits, acc =>
    if c = '=' then
      if quad_pos < 2 then
        a2b_base64_aux rest quad_pos leftchar leftbits acc
      else if quad_pos = 2 && !(rest.find? isB64Valid == some '=') then
        a2b_base64_aux rest quad_pos leftchar leftbits acc
      else
        Except.ok acc.reverse
    else
      match b64charVal c with
      | none => a2b_base64_aux rest quad_pos leftchar leftbits acc
      | some v =>
        let quad_pos1 := (quad_pos + 1) % 4
        let leftchar1 := leftchar * 64 + v
        let leftbits1 := leftbits + 6
        if 8 ≤ leftbits1 then
          a2b_base64_aux rest quad_pos1 (leftchar1 % 2 ^ (leftbits1 - 8)) (leftbits1 - 8)
            ((leftchar1 / 2 ^ (leftbits1 - 8) % 256) :: acc)
        else
          a2b_base64_aux rest quad_pos1 leftchar1 leftbits1 acc

/-- base64.b64decode on a text argument (lax mode, as called at line 204
of the source with no validate flag). -/
def b64decode (s : String) : Except PyErr (List Nat) :=
  a2b_base64_aux s.data 0 0 0 []

/-- The base64 alphabet in encoding order. -/
def b64chars : List Char :=
  String.data "ABCDEFGHIJKLMNOPQRSTUVWXYZabcdefghijklmnopqrstuvwxyz0123456789+/"

/-- Character encoding a six-bit value. -/
def b64charOf (n : Nat) : Char := b64chars.getD n 'A'

/-- base64.b64encode on a byte list, producing the text written to the
certificate file (the source writes b64encode(data).decode("utf-8")). -/
def b64encode : List Nat → List Char
  | [] => []
  | [a] => [b64charOf (a / 4 % 64), b64charOf (a % 4 * 16), '=', '=']
  | [a, b] => [b64charOf (a / 4 % 64), b64charOf (a % 4 * 16 + b / 16), b64charOf (b % 16 * 4), '=']
  | a :: b :: c :: rest =>
    b64charOf (a / 4 % 64) :: b64charOf (a % 4 * 16 + b / 16)
      :: b64charOf (b % 16 * 4 + c / 64) :: b64charOf (c % 64) :: b64encode rest

/-- b64encode as a string. -/
def b64encodeString (l : List Nat) : String := String.mk (b64encode l)

/-- The App configuration record of the source (a namedtuple with fields
is_no_op, cwd, argv, helper_path, signtool_path, certificate_ext,
password_ext, timestamp_url and env_prefix; the last is spelled
envPrefix here). Constructed once per process and read-only. -/
structure App where
  is_no_op : Bool
  cwd : String
  argv : List String
  helper_path : String
  signtool_path : String
  certificate_ext : String
  password_ext : String
  timestamp_url : String
  envPrefix : String
deriving DecidableEq, Repr

/-- App.no_op from the source: the placeholder configuration selected on
every platform other than Windows. Field order: is_no_op, cwd, argv,
helper_path, signtool_path, certificate_ext, password_ext,
timestamp_url, envPrefix. -/
def App.no_op (cwd : String) (argv : List String) : App :=
  ⟨true, cwd, argv, "HELPER_PATH", "SIGNTOOL_PATH", ".crt", ".crtpass",
    "TIMESTAMP_URL", "RUST_TOOL_ACTION_CODE_SIGN_"⟩

/-- A functional-mode configuration used as a concrete test input: the
same fixed extensions, prefix and structure as App.default of the
source, with the platform-dependent helper and signtool locations and
the timestamp URL filled with stand-in strings. -/
def testApp : App :=
  ⟨false, "", [], "generate-certificate-helper.ps1", "signtool.exe", ".crt", ".crtpass",
    "http://timestamp.digicert.com", "RUST_TOOL_ACTION_CODE_SIGN_"⟩

/-- The SecretsPaths namedtuple: the certificate path and its sibling
password path. -/
structure SecretsPaths where
  certificate_path : String
  password_path : String
deriving DecidableEq, Repr

/-- SecretsPaths.parse (source lines 177-185): split the certificate
path into stem and extension; reject with ValueError unless the
extension equals the configured certificate extension exactly; on
success pair the path with the stem extended by the password extension. -/
def SecretsPaths.parse (app : App) (certificate_path : String) : Except PyErr SecretsPaths :=
  if (splitext certificate_path).2 = app.certificate_ext then
    Except.ok ⟨certificate_path, (splitext certificate_path).1 ++ app.password_ext⟩
  else
    Except.error PyErr.validationError

/-- The Secrets namedtuple: decoded certificate bytes and password text. -/
structure Secrets where
  certificate : List Nat
  password : String
deriving DecidableEq, Repr

/-- Secrets.decode (source lines 202-207): base64-decode the certificate
text and pair the bytes with the password. -/
def Secrets.decode (b64_certificate : String) (password : String) : Except PyErr Secrets :=
  match b64decode b64_certificate with
  | Except.error e => Except.error e
  | Except.ok certificate => Except.ok ⟨certificate, password⟩

/-- Secrets.load (source lines 188-200). The first statement of the body
is SecretsPaths.parse(certificate_path): parse requires the two
positional parameters app and certificate_path, so this call binds the
path to app, leaves certificate_path missing, and Python raises
TypeError before any file is opened. The file reads and the decode in
the rest of the body are unreachable; the filesystem and path arguments
are therefore never consulted. -/
def Secrets.load (_fs : FS) (_certificate_path : String) : Except PyErr Secrets :=
  Except.error PyErr.typeError

example : b64decode "AQID" = Except.ok [1, 2, 3] := by rfl
example : b64encodeString [1, 2, 3] = "AQID" := by rfl
example : b64decode "AA==!!" = Except.ok [0] := by rfl
example : b64decode "not base64!!" = Except.error PyErr.decodeError := by rfl
example : splitext "out.crt" = ("out", ".crt") := by rfl
example : splitext "a/b.dir/.crt" = ("a/b.dir/.crt", "") := by rfl
example : splitext "a.b/c" = ("a.b/c", "") := by rfl

/-- The fixed certificate subject used by generate_certificate. -/
def gencert_subject : String := "Code-signing certificate for rcook.org"

/-- The ConvertTo-SecureString subcommand list built by
generate_certificate (source line 116). -/
def secureStringSubcommand (password : String) : List String :=
  ["ConvertTo-SecureString", "-String", password, "-Force", "-AsPlainText"]

/-- The powershell command invoking the certificate-generation helper
(source lines 117-125). -/
def helper_command (app : App) (temp_path subject password : String) : List String :=
  ["powershell", "-NoProfile", "-Command", app.helper_path, "-PfxPath", temp_path,
    "-Subject", "\"" ++ subject ++ "\"", "-Password", "("]
    ++ secureStringSubcommand password ++ [")"]

/-- The signtool sign command (source lines 146-160). -/
def sign_command (app : App) (temp_path password executable_path : String) : List String :=
  [app.signtool_path, "sign", "/f", temp_path, "/p", password, "/tr", app.timestamp_url,
    "/td", "SHA256", "/fd", "SHA256", executable_path]

/-- The signtool verify command (source lines 167-173). -/
def verify_command (app : App) (executable_path : String) : List String :=
  [app.signtool_path, "verify", "/pa", "/v", executable_path]

/-- App.generate_certificate (source lines 106-135). Returns the final
filesystem, the effect trace, and the outcome. In no-op mode it returns
at once. Otherwise: parse the certificate path; spawn the helper in a
scoped temporary directory (the helper outcome and produced pfx bytes
are the oracle argument, the random uuid password and the temporary
directory name are parameters); then open the temporary file for
reading together with the certificate path for writing, and afterwards
the password path, both with mode "wt" when the force argument is
truthy and exclusive-create mode "xt" otherwise, so an existing target
raises FileExistsError. The certificate file receives the
base64-encoded pfx bytes and the password file the password. The
temporary directory is scoped, so its content never enters the
persistent filesystem. -/
def App.generate_certificate (app : App) (fs : FS) (certificate_path : String)
    (force : PyVal) (helper : Except Unit (List Nat)) (password temp_dir : String) :
    FS × List Effect × Except PyErr Unit :=
  if app.is_no_op then (fs, [], Except.ok ())
  else
    match SecretsPaths.parse app certificate_path with
    | Except.error e => (fs, [], Except.error e)
    | Except.ok paths =>
      let temp_path := file_path temp_dir "cert.pfx"
      let command := helper_command app temp_path gencert_subject password
      match helper with
      | Except.error _ => (fs, [Effect.spawn command], Except.error PyErr.processFailed)
      | Except.ok pfx_data =>
        if !pyTruthy force && fsExists fs paths.certificate_path then
          (fs, [Effect.spawn command, Effect.fsRead temp_path], Except.error PyErr.alreadyExists)
        else
          let fs1 := fsWrite fs paths.certificate_path (b64encodeString pfx_data)
          if !pyTruthy force && fsExists fs1 paths.password_path then
            (fs1, [Effect.spawn command, Effect.fsRead temp_path,
              Effect.fsWrite paths.certificate_path], Except.error PyErr.alreadyExists)
          else
            (fsWrite fs1 paths.password_path password,
              [Effect.spawn command, Effect.fsRead temp_path,
                Effect.fsWrite paths.certificate_path, Effect.fsWrite paths.password_path],
              Except.ok ())

/-- App.sign_executable (source lines 137-161). In no-op mode it returns
at once. Otherwise it writes the decoded certificate bytes to a file in
a scoped temporary directory and spawns signtool over it; the tool
outcome is the oracle argument. The persistent filesystem is never
modified. -/
def App.sign_executable (app : App) (fs : FS) (secrets : Secrets)
    (executable_path temp_dir : String) (tool : Except Unit Unit) :
    FS × List Effect × Except PyErr Unit :=
  if app.is_no_op then (fs, [], Except.ok ())
  else
    let temp_path := file_path temp_dir "cert.pfx"
    let command := sign_command app temp_path secrets.password executable_path
    match tool with
    | Except.error _ =>
      (fs, [Effect.fsWrite temp_path, Effect.spawn command], Except.error PyErr.processFailed)
    | Except.ok _ =>
      (fs, [Effect.fsWrite temp_path, Effect.spawn command], Except.ok ())

/-- App.verify_executable (source lines 163-174). In no-op mode it
raises RuntimeError (the UnsupportedOperation of the spec) at once;
otherwise it spawns signtool verify and propagates its outcome. -/
def App.verify_executable (app : App) (fs : FS) (executable_path : String)
    (tool : Except Unit Unit) : FS × List Effect × Except PyErr Unit :=
  if app.is_no_op then (fs, [], Except.error PyErr.unsupportedOperation)
  else
    match tool with
    | Except.error _ =>
      (fs, [Effect.spawn (verify_command app executable_path)], Except.error PyErr.processFailed)
    | Except.ok _ =>
      (fs, [Effect.spawn (verify_command app executable_path)], Except.ok ())

/-- One directory visited by os.walk under the signtool installation
root: the directory path and the file names it holds (the subdirectory
list of the triple is unused by the source loop and omitted). -/
structure WalkEntry where
  root_dir : String
  files : List String
deriving DecidableEq, Repr

/-- The match condition of the find_signtool loop: the file name equals
the searched file name and the base name of its directory equals the
architecture tag, both up to ASCII case. -/
def signtoolMatch (arch file_name root_dir f : String) : Bool :=
  lowerStr f == lowerStr file_name && lowerStr (basename root_dir) == lowerStr arch

/-- App.find_signtool (source lines 74-96), over the os.walk listing of
the well-known installation root (ProgramFiles(x86)\Windows Kits\10\bin)
passed as input. Scans directories in walk order and, inside each, file
names in listing order; returns the first pair whose file name matches
the searched name and whose directory base name matches the
architecture tag, both case-insensitively; raises RuntimeError (the
NotFound of the spec) when no entry matches. The source returns
file_path(root_dir, f); the pair keeps the two components that the join
would combine. -/
def App.find_signtool (arch file_name : String) : List WalkEntry → Except PyErr (String × String)
  | [] => Except.error PyErr.notFound
  | e :: rest =>
    match e.files.find? (fun f => signtoolMatch arch file_name e.root_dir f) with
    | some f => Except.ok (e.root_dir, f)
    | none => App.find_signtool arch file_name rest

/-- secrets_type from main (source lines 220-225): resolve the --cert
argument against the working directory and load the bundle, turning any
failure into an ArgumentTypeError via the bare except. -/
def secrets_type (app : App) (fs : FS) (s : String) : Except PyErr Secrets :=
  match Secrets.load fs (file_path app.cwd s) with
  | Except.error _ => Except.error PyErr.argumentTypeError
  | Except.ok secrets => Except.ok secrets

/-- file_path_must_exist_type from main (source lines 213-217): resolve
the argument against the working directory and reject it with
ArgumentTypeError when no file exists at the result. -/
def file_path_must_exist_type (app : App) (fs : FS) (s : String) : Except PyErr String :=
  if fsExists fs (file_path app.cwd s) then Except.ok (file_path app.cwd s)
  else Except.error PyErr.argumentTypeError

/-- os.getenv over an environment given as an association list. -/
def getenv : List (String × String) → String → Option String
  | [], _ => none
  | (k, v) :: rest, q => if k = q then some v else getenv rest q

/-- How the --cert flag of the sign subcommand is declared: either
required with no default, or optional with default secrets decoded from
the environment. -/
inductive SecretsArgSpec where
  | required
  | defaulted (s : Secrets)
deriving DecidableEq, Repr

/-- add_secrets_arg (source lines 219-254): read the two
default-credential environment variables; when both are set, decode
them eagerly with Secrets.decode while the sign subparser is being set
up (a decode failure therefore propagates before any argument is
parsed); declare --cert as required exactly when no default was
constructed. -/
def add_secrets_arg (app : App) (env : List (String × String)) : Except PyErr SecretsArgSpec :=
  match getenv env (app.envPrefix ++ "CRT"), getenv env (app.envPrefix ++ "CRTPASS") with
  | some default_b64_certificate, some default_password =>
    match Secrets.decode default_b64_certificate default_password with
    | Except.error e => Except.error e
    | Except.ok s => Except.ok (SecretsArgSpec.defaulted s)
  | some _, none => Except.ok SecretsArgSpec.required
  | none, some _ => Except.ok SecretsArgSpec.required
  | none, none => Except.ok SecretsArgSpec.required

/-- Resolution of the secrets argument at parse time: an explicit
--cert value goes through secrets_type; with no explicit value a
required flag is an argparse error and an optional one yields the
default secrets. -/
def resolve_secrets (app : App) (fs : FS) (spec : SecretsArgSpec) (certArg : Option String) :
    Except PyErr Secrets :=
  match certArg with
  | some s => secrets_type app fs s
  | none =>
    match spec with
    | SecretsArgSpec.required => Except.error PyErr.missingArgument
    | SecretsArgSpec.defaulted d => Except.ok d

/-- The cert subcommand default for force declared by the subparser
(source line 282): the string "false", not the boolean False. -/
def cert_force_default : PyVal := PyVal.str "false"

/-- The cert subcommand (source lines 267-288): the positional path is
resolved against the working directory with file_path_type; force is
the boolean set by --force or --no-force when one was given and
cert_force_default otherwise; then generate_certificate runs. -/
def cert_cli (app : App) (fs : FS) (forceFlag : Option Bool) (cert_arg : String)
    (helper : Except Unit (List Nat)) (password temp_dir : String) :
    FS × List Effect × Except PyErr Unit :=
  let force := match forceFlag with
    | some b => PyVal.bool b
    | none => cert_force_default
  App.generate_certificate app fs (file_path app.cwd cert_arg) force helper password temp_dir

/-- The sign subcommand end to end (source lines 290-304 with lines
318-319): parser setup first runs add_secrets_arg, so an eager decode
failure surfaces before the arguments are parsed; then the secrets
argument and the positional executable argument are validated, and only
when both conversions succeed does sign_executable run. An argument
conversion failure produces no effect: nothing is read through the
orchestrator and no process is spawned. -/
def sign_main (app : App) (env : List (String × String)) (fs : FS)
    (certArg : Option String) (exeArg temp_dir : String) (tool : Except Unit Unit) :
    FS × List Effect × Except PyErr Unit :=
  match add_secrets_arg app env with
  | Except.error e => (fs, [], Except.error e)
  | Except.ok spec =>
    match resolve_secrets app fs spec certArg with
    | Except.error e => (fs, [], Except.error e)
    | Except.ok secrets =>
      match file_path_must_exist_type app fs exeArg with
      | Except.error e => (fs, [], Except.error e)
      | Except.ok exe => App.sign_executable app fs secrets exe temp_dir tool

/-- The verify subcommand end to end (source lines 306-316 with lines
318-319): the positional executable argument is validated during
parsing and verify_executable runs only when it converts. -/
def verify_main (app : App) (fs : FS) (exeArg : String) (tool : Except Unit Unit) :
    FS × List Effect × Except PyErr Unit :=
  match file_path_must_exist_type app fs exeArg with
  | Except.error e => (fs, [], Except.error e)
  | Except.ok exe => App.verify_executable app fs exe tool

example : pyTruthy cert_force_default = true := by rfl
example :
    cert_cli testApp [("out.crt", "OLD"), ("out.crtpass", "OLDPW")] none "out.crt"
      (Except.ok [1, 2, 3]) "newpw" "TMP"
    = ([("out.crt", "AQID"), ("out.crtpass", "newpw")],
        [Effect.spawn (helper_command testApp "TMP/cert.pfx" gencert_subject "newpw"),
          Effect.fsRead "TMP/cert.pfx", Effect.fsWrite "out.crt", Effect.fsWrite "out.crtpass"],
        Except.ok ()) := by rfl
example :
    App.generate_certificate testApp [("out.crt", "OLD")] "out.crt" (PyVal.bool false)
      (Except.ok [1, 2, 3]) "newpw" "TMP"
    = ([("out.crt", "OLD")],
        [Effect.spawn (helper_command testApp "TMP/cert.pfx" gencert_subject "newpw"),
          Effect.fsRead "TMP/cert.pfx"],
        Except.error PyErr.alreadyExists) := by rfl

/-- C1: the claimed save-then-load round trip fails on the code. After a
successful save of a bundle under out.crt (the certificate file holds
the base64 text and the password file the password), Secrets.load on
that same certificate path raises TypeError: its first statement calls
SecretsPaths.parse with the path bound to the app parameter and the
certificate_path parameter missing. So load never succeeds, let alone
returns the saved bundle. -/
theorem C1_saved_bundle_load_fails :
    (App.generate_certificate testApp [] "out.crt" (PyVal.bool false)
        (Except.ok [1, 2, 3]) "pw" "TMP").2.2 = Except.ok ()
    ∧ fsLookup (App.generate_certificate testApp [] "out.crt" (PyVal.bool false)
        (Except.ok [1, 2, 3]) "pw" "TMP").1 "out.crt" = some "AQID"
    ∧ Secrets.load (App.generate_certificate testApp [] "out.crt" (PyVal.bool false)
        (Except.ok [1, 2, 3]) "pw" "TMP").1 "out.crt" = Except.error PyErr.typeError :=
  ⟨rfl, rfl, rfl⟩

/-- C2: the cert subcommand invoked without --force or --no-force does
not fail with AlreadyExists when both output files exist: the declared
parser default for force is the string "false", which is truthy, so the
open mode is "wt" and both files are truncated and replaced. The
theorem evaluates the code at the failing input: with both outputs
present and no force flag, the run succeeds and overwrites both files. -/
theorem C2_cert_default_force_overwrites :
    pyTruthy cert_force_default = true
    ∧ cert_cli testApp [("out.crt", "OLD"), ("out.crtpass", "OLDPW")] none "out.crt"
        (Except.ok [1, 2, 3]) "newpw" "TMP"
      = ([("out.crt", "AQID"), ("out.crtpass", "newpw")],
          [Effect.spawn (helper_command testApp "TMP/cert.pfx" gencert_subject "newpw"),
            Effect.fsRead "TMP/cert.pfx", Effect.fsWrite "out.crt", Effect.fsWrite "out.crtpass"],
          Except.ok ()) :=
  ⟨rfl, rfl⟩

/-- C3 counterexample: decoding does silently succeed on input holding
characters outside the base64 alphabet. The character bang is not in
the alphabet, yet Secrets.decode on "AA==!!" succeeds and returns the
single zero byte, because the lax b64decode discards every character
outside the alphabet before decoding. -/
theorem C3_counterexample_silent_success :
    isB64Alphabet '!' = false
    ∧ Secrets.decode "AA==!!" "pw" = Except.ok ⟨[0], "pw"⟩ := ⟨rfl, rfl⟩

/-- C3 amended: decoding the example text "not base64!!" does fail with
DecodeError (its nine retained alphabet characters are not properly
padded), but decoding does not fail on every input containing
characters outside the base64 alphabet: such characters are discarded,
so "AA==!!" decodes successfully to one byte. -/
theorem C3_amended_decode_behaviour :
    Secrets.decode "not base64!!" "pw" = Except.error PyErr.decodeError
    ∧ Secrets.decode "AA==!!" "pw" = Except.ok ⟨[0], "pw"⟩
    ∧ isB64Alphabet '!' = false ∧ isB64Alphabet ' ' = false :=
  ⟨rfl, rfl, rfl, rfl⟩

/-- C4: for every path, when the extension split off by splitext equals
the configured certificate extension, SecretsPaths.parse succeeds and
returns exactly the path paired with its stem extended by the
configured password extension; for every other extension it fails with
ValidationError. -/
theorem C4_parse_extension_gate (app : App) (p : String) :
    ((splitext p).2 = app.certificate_ext →
      SecretsPaths.parse app p = Except.ok ⟨p, (splitext p).1 ++ app.password_ext⟩)
    ∧ ((splitext p).2 ≠ app.certificate_ext →
      SecretsPaths.parse app p = Except.error PyErr.validationError) := by
  constructor <;> intro h <;> simp [SecretsPaths.parse, h]

/-- C4 witness: parse accepts out.crt and rejects out.txt. -/
theorem C4_parse_witness :
    SecretsPaths.parse testApp "out.crt" = Except.ok ⟨"out.crt", "out.crtpass"⟩
    ∧ SecretsPaths.parse testApp "out.txt" = Except.error PyErr.validationError :=
  ⟨(C4_parse_extension_gate testApp "out.crt").1 (by rfl),
    (C4_parse_extension_gate testApp "out.txt").2 (by decide)⟩

/-- C5: in no-op mode, for all argument values, generate_certificate
and sign_executable return without error with an empty effect trace and
the on-disk state unchanged, while verify_executable fails with
UnsupportedOperation, also with no effects and the state unchanged. -/
theorem C5_no_op_operations (app : App) (h : app.is_no_op = true)
    (fs1 fs2 fs3 : FS) (certificate_path : String) (force : PyVal)
    (helper : Except Unit (List Nat)) (password temp_dir1 : String)
    (secrets : Secrets) (exe1 temp_dir2 : String) (tool1 : Except Unit Unit)
    (exe2 : String) (tool2 : Except Unit Unit) :
    App.generate_certificate app fs1 certificate_path force helper password temp_dir1
      = (fs1, [], Except.ok ())
    ∧ App.sign_executable app fs2 secrets exe1 temp_dir2 tool1 = (fs2, [], Except.ok ())
    ∧ App.verify_executable app fs3 exe2 tool2
      = (fs3, [], Except.error PyErr.unsupportedOperation) := by
  refine ⟨?_, ?_, ?_⟩ <;>
    simp [App.generate_certificate, App.sign_executable, App.verify_executable, h]

/-- C5 witness: the three no-op behaviours at the App.no_op
configuration on concrete arguments. -/
theorem C5_no_op_witness :
    App.generate_certificate (App.no_op "" []) [] "x.txt" (PyVal.bool true)
        (Except.ok []) "pw" "T" = ([], [], Except.ok ())
    ∧ App.sign_executable (App.no_op "" []) [] ⟨[], "pw"⟩ "a.exe" "T" (Except.ok ())
        = ([], [], Except.ok ())
    ∧ App.verify_executable (App.no_op "" []) [] "a.exe" (Except.ok ())
        = ([], [], Except.error PyErr.unsupportedOperation) :=
  C5_no_op_operations (App.no_op "" []) rfl [] [] [] "x.txt" (PyVal.bool true)
    (Except.ok []) "pw" "T" ⟨[], "pw"⟩ "a.exe" "T" (Except.ok ()) "a.exe" (Except.ok ())

/-- C6: saving with overwrite false (the boolean) when the certificate
target file already exists fails with AlreadyExists and leaves the
filesystem exactly as it was, so a second save to the same paths always
fails without modifying the first bundle's files. The effect trace
shows only the helper invocation and the temporary read: neither target
is opened for writing. -/
theorem C6_exclusive_save_fails (app : App) (fs : FS) (p : String) (paths : SecretsPaths)
    (pfx : List Nat) (password temp_dir : String)
    (hno : app.is_no_op = false)
    (hparse : SecretsPaths.parse app p = Except.ok paths)
    (hex : fsExists fs paths.certificate_path = true) :
    App.generate_certificate app fs p (PyVal.bool false) (Except.ok pfx) password temp_dir
      = (fs,
          [Effect.spawn
              (helper_command app (file_path temp_dir "cert.pfx") gencert_subject password),
            Effect.fsRead (file_path temp_dir "cert.pfx")],
          Except.error PyErr.alreadyExists) := by
  simp [App.generate_certificate, hno, hparse, hex, pyTruthy]

/-- C6 witness: a second exclusive save against an existing out.crt
fails and leaves the stored content untouched. -/
theorem C6_exclusive_save_witness :
    App.generate_certificate testApp [("out.crt", "OLD"), ("out.crtpass", "OLDPW")] "out.crt"
        (PyVal.bool false) (Except.ok [1, 2, 3]) "pw" "TMP"
      = ([("out.crt", "OLD"), ("out.crtpass", "OLDPW")],
          [Effect.spawn (helper_command testApp (file_path "TMP" "cert.pfx") gencert_subject "pw"),
            Effect.fsRead (file_path "TMP" "cert.pfx")],
          Except.error PyErr.alreadyExists) :=
  C6_exclusive_save_fails testApp [("out.crt", "OLD"), ("out.crtpass", "OLDPW")] "out.crt"
    ⟨"out.crt", "out.crtpass"⟩ [1, 2, 3] "pw" "TMP" rfl (by rfl) (by rfl)

/-- C7: when the executable argument names no existing file, the sign
and verify subcommands reject it during argument validation: the
invocation fails with an empty effect trace, so no orchestrator
operation runs and no external process is spawned; verify fails with
the ArgumentTypeError of file_path_must_exist_type and an unchanged
filesystem. -/
theorem C7_missing_executable_rejected (app : App) (env : List (String × String)) (fs : FS)
    (certArg : Option String) (exeArg temp_dir : String) (tool vtool : Except Unit Unit)
    (hmiss : fsExists fs (file_path app.cwd exeArg) = false) :
    ((sign_main app env fs certArg exeArg temp_dir tool).2.1 = []
      ∧ ∃ e, (sign_main app env fs certArg exeArg temp_dir tool).2.2 = Except.error e)
    ∧ verify_main app fs exeArg vtool = (fs, [], Except.error PyErr.argumentTypeError) := by
  constructor
  · simp only [sign_main]
    split
    · exact ⟨rfl, _, rfl⟩
    · split
      · exact ⟨rfl, _, rfl⟩
      · simp only [file_path_must_exist_type, hmiss]
        exact ⟨rfl, _, rfl⟩
  · simp [verify_main, file_path_must_exist_type, hmiss]

/-- C7 witness: with an empty filesystem, sign and verify on app.exe
fail with no effects. -/
theorem C7_missing_executable_witness :
    ((sign_main testApp [] [] none "app.exe" "T" (Except.ok ())).2.1 = []
      ∧ ∃ e, (sign_main testApp [] [] none "app.exe" "T" (Except.ok ())).2.2 = Except.error e)
    ∧ verify_main testApp [] "app.exe" (Except.ok ())
      = ([], [], Except.error PyErr.argumentTypeError) :=
  C7_missing_executable_rejected testApp [] [] none "app.exe" "T" (Except.ok ()) (Except.ok ())
    (by rfl)

/-- C8: find_signtool returns a pair whose file name equals the
searched tool name and whose directory base name equals the requested
architecture tag, both up to ASCII case, drawn from the walked listing;
and when no file under the root satisfies both conditions it fails with
NotFound. -/
theorem C8_find_signtool_characterised (arch file_name : String) (walk : List WalkEntry) :
    (∀ d f, App.find_signtool arch file_name walk = Except.ok (d, f) →
        signtoolMatch arch file_name d f = true
        ∧ ∃ e, e ∈ walk ∧ WalkEntry.root_dir e = d ∧ f ∈ WalkEntry.files e)
    ∧ ((walk.all fun e => (WalkEntry.files e).all
          fun f => !signtoolMatch arch file_name (WalkEntry.root_dir e) f) = true →
        App.find_signtool arch file_name walk = Except.error PyErr.notFound) := by
  induction walk with
  | nil =>
    refine ⟨fun d f h => ?_, fun _ => rfl⟩
    simp [App.find_signtool] at h
  | cons e rest ih =>
    constructor
    · intro d f h
      simp only [App.find_signtool] at h
      split at h
      · next g hg =>
          simp only [Except.ok.injEq, Prod.mk.injEq] at h
          obtain ⟨h1, h2⟩ := h
          subst h1
          subst h2
          exact ⟨List.find?_some hg, e, List.mem_cons_self e rest, rfl,
            List.mem_of_find?_eq_some hg⟩
      · next hg =>
          obtain ⟨hm, e2, he2, hd, hmem⟩ := ih.1 d f h
          exact ⟨hm, e2, List.mem_cons_of_mem e he2, hd, hmem⟩
    · intro hall
      simp only [List.all_cons, Bool.and_eq_true] at hall
      obtain ⟨h1, h2⟩ := hall
      have hf : (WalkEntry.files e).find?
          (fun f => signtoolMatch arch file_name (WalkEntry.root_dir e) f) = none := by
        rw [List.find?_eq_none]
        intro x hx
        have hx2 := List.all_eq_true.mp h1 x hx
        simp only [Bool.not_eq_true'] at hx2
        simp [hx2]
      simp only [App.find_signtool, hf]
      exact ih.2 h2

/-- C8 witness: a listing where the file name matches but the directory
tag never does yields NotFound, and a case-insensitive match under an
X64 directory satisfies both conditions of the success direction. -/
theorem C8_find_signtool_witness :
    App.find_signtool "x64" "signtool.exe" [⟨"kits/bin/arm", ["signtool.exe"]⟩]
      = Except.error PyErr.notFound
    ∧ (signtoolMatch "x64" "signtool.exe" "kits/bin/X64" "SignTool.EXE" = true
        ∧ ∃ e, e ∈ [WalkEntry.mk "kits/bin/X64" ["SignTool.EXE"]]
            ∧ WalkEntry.root_dir e = "kits/bin/X64" ∧ "SignTool.EXE" ∈ WalkEntry.files e) :=
  ⟨(C8_find_signtool_characterised "x64" "signtool.exe" [⟨"kits/bin/arm", ["signtool.exe"]⟩]).2
      (by rfl),
    (C8_find_signtool_characterised "x64" "signtool.exe"
        [WalkEntry.mk "kits/bin/X64" ["SignTool.EXE"]]).1 "kits/bin/X64" "SignTool.EXE" (by rfl)⟩

/-- C9: environment default credentials are constructed if and only if
both variables (prefix plus CRT and prefix plus CRTPASS) are set: when
either is missing the --cert flag is declared required with no default,
and when both are set the declaration carries the decoded default (or
propagates the decode failure). -/
theorem C9_env_default_iff_both (app : App) (env : List (String × String)) :
    (((getenv env (app.envPrefix ++ "CRT")).isSome = false
        ∨ (getenv env (app.envPrefix ++ "CRTPASS")).isSome = false) →
      add_secrets_arg app env = Except.ok SecretsArgSpec.required)
    ∧ (∀ c p, getenv env (app.envPrefix ++ "CRT") = some c →
        getenv env (app.envPrefix ++ "CRTPASS") = some p →
        add_secrets_arg app env = Except.map SecretsArgSpec.defaulted (Secrets.decode c p)) := by
  constructor
  · intro h
    cases hc : getenv env (app.envPrefix ++ "CRT") with
    | none =>
      cases hp : getenv env (app.envPrefix ++ "CRTPASS") with
      | none => simp [add_secrets_arg, hc, hp]
      | some p => simp [add_secrets_arg, hc, hp]
    | some c =>
      cases hp : getenv env (app.envPrefix ++ "CRTPASS") with
      | none => simp [add_secrets_arg, hc, hp]
      | some p =>
        rw [hc, hp] at h
        simp at h
  · intro c p hc hp
    simp only [add_secrets_arg, hc, hp]
    cases hd : Secrets.decode c p with
    | error e => simp [Except.map, hd]
    | ok s => simp [Except.map, hd]

/-- C9 witness: with only the certificate variable set the flag is
required; with both set the decoded default is produced. -/
theorem C9_env_default_witness :
    add_secrets_arg testApp [("RUST_TOOL_ACTION_CODE_SIGN_CRT", "AQID")]
      = Except.ok SecretsArgSpec.required
    ∧ add_secrets_arg testApp
        [("RUST_TOOL_ACTION_CODE_SIGN_CRT", "AQID"), ("RUST_TOOL_ACTION_CODE_SIGN_CRTPASS", "pw")]
      = Except.ok (SecretsArgSpec.defaulted ⟨[1, 2, 3], "pw"⟩) :=
  ⟨(C9_env_default_iff_both testApp [("RUST_TOOL_ACTION_CODE_SIGN_CRT", "AQID")]).1
      (Or.inr (by rfl)),
    (C9_env_default_iff_both testApp
        [("RUST_TOOL_ACTION_CODE_SIGN_CRT", "AQID"),
          ("RUST_TOOL_ACTION_CODE_SIGN_CRTPASS", "pw")]).2 "AQID" "pw" (by rfl) (by rfl)⟩

/-- C10: when both default-credential variables are set and the
certificate variable is not valid base64, the eager decode during sign
subparser setup fails before any argument is parsed, so every sign
invocation fails with DecodeError and an empty effect trace, whatever
the command line (including an explicit --cert value). -/
theorem C10_eager_env_decode (app : App) (env : List (String × String)) (fs : FS)
    (certArg : Option String) (exeArg temp_dir : String) (tool : Except Unit Unit)
    (c p : String)
    (hc : getenv env (app.envPrefix ++ "CRT") = some c)
    (hp : getenv env (app.envPrefix ++ "CRTPASS") = some p)
    (hbad : b64decode c = Except.error PyErr.decodeError) :
    sign_main app env fs certArg exeArg temp_dir tool
      = (fs, [], Except.error PyErr.decodeError) := by
  simp only [sign_main, add_secrets_arg, hc, hp, Secrets.decode, hbad]

/-- C10 witness: with the certificate variable holding "not base64!!"
and the password variable set, a sign invocation passing an explicit
--cert for a stored bundle and an existing executable still fails with
DecodeError and no effects. -/
theorem C10_eager_env_decode_witness :
    sign_main testApp
      [("RUST_TOOL_ACTION_CODE_SIGN_CRT", "not base64!!"),
        ("RUST_TOOL_ACTION_CODE_SIGN_CRTPASS", "pw")]
      [("cert.crt", "AQID"), ("cert.crtpass", "pw"), ("app.exe", "MZ")]
      (some "cert.crt") "app.exe" "T" (Except.ok ())
      = ([("cert.crt", "AQID"), ("cert.crtpass", "pw"), ("app.exe", "MZ")], [],
          Except.error PyErr.decodeError) :=
  C10_eager_env_decode testApp
    [("RUST_TOOL_ACTION_CODE_SIGN_CRT", "not base64!!"),
      ("RUST_TOOL_ACTION_CODE_SIGN_CRTPASS", "pw")]
    [("cert.crt", "AQID"), ("cert.crtpass", "pw"), ("app.exe", "MZ")]
    (some "cert.crt") "app.exe" "T" (Except.ok ()) "not base64!!" "pw" (by rfl) (by rfl) (by rfl)
